import Mathlib

/-!
Verification development for the mcq-bot repository (files `Co_mcq.py`,
`Bot_mcq0.4v.py`, `Bot_mcq0.5v.py`).

The core of `Co_mcq.py` is a cascade of Python `re` patterns (`PATTERNS`,
lines 53-96) consumed by `parse_mcq` (lines 205-243), plus an in-memory
per-destination send queue driven by `enqueue_mcq` (lines 360-410) and
`process_queue` (lines 263-358).  We embed:

* a small backtracking regular-expression engine with Python `re`
  semantics (leftmost match, ordered alternation, greedy/lazy bounded
  repetition, capture groups, `finditer` non-overlapping scanning),
  fuel-indexed so that every function is total;
* the six `PATTERNS` of `Co_mcq.py` and the option-splitting `findall`
  pattern of line 215, and on top of them `parse_mcq` itself including
  `escape_markdown` and the answer-label maps `ARABIC_DIGITS`,
  `EN_LETTERS`, `AR_LETTERS`;
* the queue/submission state machine: the rate-limit gate, the
  queue-capacity gate, block splitting, enqueue-time deduplication and
  the unconditional worker spawn of `enqueue_mcq`, and the drain loop of
  `process_queue` with its cache/database dedup, retry bookkeeping and
  requeue-at-head-and-stop behaviour (delivery outcomes are an oracle
  parameter, one Boolean per `send_poll` attempt);
* from `Bot_mcq0.4v.py` / `Bot_mcq0.5v.py`, the answer-index arithmetic
  (lines 235-241) and the option-shuffle index remapping (lines 244-249)
  of `parse_premade_mcq`, the shuffle being quantified over an arbitrary
  permutation of the indexed option list.

Notes on fidelity.  `Co_mcq.py` is stored with its non-ASCII literals
double-encoded (UTF-8 read back as Latin-1); we embed the intended
Arabic codepoints, which the cleanly encoded sibling files use.  The
`md5` hex digest is modelled by its preimage string `q + ':::'.join(opts)`:
the code uses the digest only as an opaque dictionary/database key, so
any injective stand-in preserves behaviour (hash collisions are not
modelled).  Python's `\d`/`\s`/`lower()` are modelled on the character
repertoire the program actually handles (ASCII plus the Arabic ranges
appearing in the patterns).  Wall-clock times (`time.time()`) are
integers (seconds); the 2-second-window comparisons are unchanged by
this granularity.
-/

namespace MCQBot

set_option maxRecDepth 20000

/-! ## Character classes (from the regex literals of `Co_mcq.py`) -/

/-- ASCII whitespace, the repertoire of Python `\s` / `str.strip()`
relevant to this program. -/
def isWs (c : Char) : Bool :=
  c = ' ' || c = '\t' || c = '\n' || c = '\r' || c = Char.ofNat 11 || c = Char.ofNat 12

def inRange (lo hi : Nat) (c : Char) : Bool :=
  lo ≤ c.toNat && c.toNat ≤ hi

/-- Class `[A-J]`. -/
def isAJ (c : Char) : Bool := inRange 65 74 c

/-- Class `[A-Za-z]`. -/
def isLatinLetter (c : Char) : Bool := inRange 65 90 c || inRange 97 122 c

/-- Class `[أ-ي]` (U+0623 .. U+064A). -/
def isArabLetter (c : Char) : Bool := inRange 0x623 0x64A c

/-- Class `[١-٩]` (U+0661 .. U+0669). -/
def isArabDigit19 (c : Char) : Bool := inRange 0x661 0x669 c

/-- Class `[0-9]`. -/
def isAsciiDigit (c : Char) : Bool := inRange 48 57 c

/-- Python `\d` (Unicode decimal digits; ASCII and Arabic-Indic are the
scripts this program handles). -/
def isPyDigit (c : Char) : Bool := isAsciiDigit c || inRange 0x660 0x669 c

/-- Class `[).:]` (also written `[.:)]`). -/
def isOptPunct (c : Char) : Bool := c = ')' || c = '.' || c = ':'

/-- Class `[:：]` (ASCII colon or fullwidth colon U+FF1A). -/
def isColon2 (c : Char) : Bool := c = ':' || c = Char.ofNat 0xFF1A

/-- Class `[A-Za-zأ-ي0-9١-٩]`. -/
def isOptChar3 (c : Char) : Bool :=
  isLatinLetter c || isArabLetter c || isAsciiDigit c || isArabDigit19 c

/-! ## A backtracking regex engine with Python `re` semantics -/

/-- Regex syntax.  `rep lzy lo hi a` is `a{lo,hi}` (`hi = none` meaning
unbounded), lazy when `lzy`.  `dollar` is Python `$` without
`re.MULTILINE`: end of input or just before a final newline. -/
inductive RE : Type where
  | eps
  | cls (p : Char → Bool)
  | lit (cs : List Char)
  | seq (a b : RE)
  | alt (a b : RE)
  | rep (lzy : Bool) (lo : Nat) (hi : Option Nat) (a : RE)
  | grp (n : Nat) (a : RE)
  | dollar

/-- Capture list: group number paired with captured text; the head entry
for a group number is its most recent capture. -/
abbrev Caps := List (Nat × List Char)

/-- Backtracking matcher in continuation-passing style.  Alternation
tries the left branch first (including full backtracking through the
continuation), greedy repetition tries the body first and lazy
repetition the continuation first, exactly as Python `re` orders its
search.  `fuel` only bounds recursion depth to make the function total;
all concrete runs below get ample fuel. -/
def mexec : Nat → RE → List Char → Caps →
    (List Char → Caps → Option (List Char × Caps)) → Option (List Char × Caps)
  | 0, _, _, _, _ => none
  | _ + 1, .eps, s, caps, k => k s caps
  | _ + 1, .cls p, s, caps, k =>
      match s with
      | [] => none
      | c :: t => if p c then k t caps else none
  | _ + 1, .lit cs, s, caps, k =>
      if cs.isPrefixOf s then k (s.drop cs.length) caps else none
  | fuel + 1, .seq a b, s, caps, k =>
      mexec fuel a s caps (fun s1 c1 => mexec fuel b s1 c1 k)
  | fuel + 1, .alt a b, s, caps, k =>
      (mexec fuel a s caps k).orElse (fun _ => mexec fuel b s caps k)
  | fuel + 1, .rep lzy lo hi a, s, caps, k =>
      if lo > 0 then
        mexec fuel a s caps
          (fun s1 c1 => mexec fuel (.rep lzy (lo - 1) (hi.map (· - 1)) a) s1 c1 k)
      else if hi = some 0 then k s caps
      else if lzy then
        (k s caps).orElse (fun _ =>
          mexec fuel a s caps
            (fun s1 c1 => mexec fuel (.rep lzy 0 (hi.map (· - 1)) a) s1 c1 k))
      else
        (mexec fuel a s caps
          (fun s1 c1 => mexec fuel (.rep lzy 0 (hi.map (· - 1)) a) s1 c1 k)).orElse
          (fun _ => k s caps)
  | fuel + 1, .grp n a, s, caps, k =>
      mexec fuel a s caps (fun s1 c1 => k s1 ((n, s.take (s.length - s1.length)) :: c1))
  | _ + 1, .dollar, s, caps, k =>
      if s = [] || s = ['\n'] then k s caps else none

/-- Fuel ample for every pattern/input pair used below (depth of one
backtracking path is linear in input length for these patterns). -/
def reFuel (n : Nat) : Nat := 16 * n + 2000

/-- Scanner `re.finditer`: scan left to right, collect non-overlapping matches,
resuming after each match (advancing one character past a zero-width
match, and past positions with no match).  `F` is the match-attempt
fuel, fixed once from the whole input's length. -/
def findIterAux : Nat → Nat → RE → List Char → List Caps → List Caps
  | 0, _, _, _, acc => acc.reverse
  | fuel + 1, F, re, s, acc =>
      match mexec F re s [] (fun s1 c1 => some (s1, c1)) with
      | some (rest, caps) =>
          if rest.length < s.length then
            findIterAux fuel F re rest (caps :: acc)
          else
            match s with
            | [] => (caps :: acc).reverse
            | _ :: t => findIterAux fuel F re t (caps :: acc)
      | none =>
          match s with
          | [] => acc.reverse
          | _ :: t => findIterAux fuel F re t acc

def findIter (re : RE) (s : List Char) : List Caps :=
  findIterAux (s.length + 1) (reFuel s.length) re s []

/-- Most recent capture of group `n`, `none` if the group did not
participate in the match (Python's `None`). -/
def capGet (caps : Caps) (n : Nat) : Option (List Char) :=
  (caps.find? (fun p => p.1 == n)).map (·.2)

/-! ## The six `PATTERNS` of `Co_mcq.py` (lines 53-96)

Group numbering: 1 = `q`, 2 = `opts`, 3 = `expl`, 4 = `ans`. -/

def litS (s : String) : RE := .lit s.data

def seqL : List RE → RE
  | [] => .eps
  | [r] => r
  | r :: rs => .seq r (seqL rs)

/-- Ordered alternation `(?:a|b|...)`. -/
def altL : List RE → RE
  | [] => .eps
  | [r] => r
  | r :: rs => .alt r (altL rs)

/-- Greedy option `r?`. -/
def optR (r : RE) : RE := .alt r .eps

/-- Whitespace run `\s*`. -/
def wsStar : RE := .rep false 0 none (.cls isWs)

/-- Whitespace run `\s+`. -/
def wsPlus : RE := .rep false 1 none (.cls isWs)

/-- Lazy `.+?` under `re.S` (dot matches newline). -/
def lazyPlusS : RE := .rep true 1 none (.cls fun _ => true)

/-- Alternative `(?:\n|$)`. -/
def nlOrEnd : RE := .alt (.cls (· = '\n')) .dollar

/-- Optional colon `[:：]?`. -/
def colonQ : RE := optR (.cls isColon2)

-- Arabic literals appearing in the patterns (Co_mcq.py stores them
-- double-encoded; these are the intended codepoints).
def sQmark : String := "س"                                          -- س
def sSoaal : String := "سؤال"                        -- سؤال
def sIjaba : String := "الإجابة"      -- الإجابة
def sSahiha : String := "الصحيحة"     -- الصحيحة
def sJawab : String := "الجواب"            -- الجواب
def sTafsir : String := "تفسير"                 -- تفسير

/-- Keyword `الإجابة\s*الصحيحة`. -/
def kwIjabaSahiha : RE := seqL [litS sIjaba, wsStar, litS sSahiha]

/-- Keyword set `(?:Answer|Ans|Correct Answer|الإجابة\s*الصحيحة|الإجابة|الجواب)`
of patterns 1, 2 and 4. -/
def ansKwA : RE :=
  altL [litS "Answer", litS "Ans", litS "Correct Answer",
        kwIjabaSahiha, litS sIjaba, litS sJawab]

/-- Keyword set `(?:Answer|Ans|الإجابة|Correct Answer|الجواب)` of patterns 3, 5 and 6. -/
def ansKwB : RE :=
  altL [litS "Answer", litS "Ans", litS sIjaba, litS "Correct Answer", litS sJawab]

/-- Explanation group `(?P<expl>(?:Explanation|تفسير)[:：]?\s*.+?)` (used optionally). -/
def explGroup : RE :=
  .grp 3 (seqL [.alt (litS "Explanation") (litS sTafsir), colonQ, wsStar, lazyPlusS])

/-- One option line `first tail \s* .+? (?:\n|$)` of an `opts` block. -/
def optLine (first tail : RE) : RE :=
  seqL [first, tail, wsStar, lazyPlusS, nlOrEnd]

/-- Shared trailer `(?P<expl>...)?\s* KW [:：]?\s*(?P<ans>CLS)`. -/
def patTrailer (kw : RE) (ansCls : Char → Bool) : RE :=
  seqL [optR explGroup, wsStar, kw, colonQ, wsStar, .grp 4 (.cls ansCls)]

/-- Shared head `PREFIX [.:)]?\s*(?P<q>.+?)\s*(?P<opts>LINE{2,10})`. -/
def patHead (pre : RE) (line : RE) : RE :=
  seqL [pre, optR (.cls isOptPunct), wsStar, .grp 1 lazyPlusS, wsStar,
        .grp 2 (.rep false 2 (some 10) line)]

/-- Pattern 1: English `Q:`/`Question` with `A)`, `B)`, ... options. -/
def pat1 : RE :=
  .seq (patHead (.alt (litS "Q") (litS "Question")) (optLine (.cls isAJ) (.cls isOptPunct)))
       (patTrailer ansKwA (fun c => isAJ c || isAsciiDigit c))

/-- Pattern 2: Arabic `س`/`سؤال` with `أ)`, `ب)`, ... options. -/
def pat2 : RE :=
  .seq (patHead (.alt (litS sQmark) (litS sSoaal)) (optLine (.cls isArabLetter) (.cls isOptPunct)))
       (patTrailer ansKwA (fun c => isArabLetter c || isArabDigit19 c))

/-- Pattern 3: no prefix, options `[A-Za-zأ-ي0-9١-٩][).:]`. -/
def pat3 : RE :=
  .seq (patHead .eps (optLine (.cls isOptChar3) (.cls isOptPunct)))
       (patTrailer ansKwB isOptChar3)

/-- Pattern 4: Arabic prefix with dot-separated options `أ.`, `ب.`, ... -/
def pat4 : RE :=
  .seq (patHead (.alt (litS sQmark) (litS sSoaal)) (optLine (.cls isArabLetter) (.cls (· = '.'))))
       (patTrailer ansKwA (fun c => isArabLetter c || isArabDigit19 c))

/-- Pattern 5: optional prefix, numeric options `\d+[).:]`. -/
def pat5 : RE :=
  .seq (patHead (optR (altL [litS "Q", litS sQmark, litS "Question", litS sSoaal]))
          (optLine (.rep false 1 none (.cls isPyDigit)) (.cls isOptPunct)))
       (patTrailer ansKwB (fun c => isAsciiDigit c || isArabDigit19 c))

/-- Pattern 6: optional prefix, bare `A ...` / `1 ...` options. -/
def pat6 : RE :=
  .seq (patHead (optR (altL [litS "Q", litS sQmark, litS "Question", litS sSoaal]))
          (optLine (.cls isOptChar3) wsPlus))
       (patTrailer ansKwB isOptChar3)

def PATTERNS : List RE := [pat1, pat2, pat3, pat4, pat5, pat6]

/-- The option-splitting pattern of `parse_mcq` line 215:
`(?:[A-Za-zأ-ي0-9١-٩][).:]|\d+[).:]|[A-Za-zأ-ي0-9١-٩]\s+|[أ-ي]\.)\s*(.+)`
(no `re.S`, so `.` excludes newline). -/
def faPat : RE :=
  seqL [altL [.seq (.cls isOptChar3) (.cls isOptPunct),
              .seq (.rep false 1 none (.cls isPyDigit)) (.cls isOptPunct),
              .seq (.cls isOptChar3) wsPlus,
              .seq (.cls isArabLetter) (.cls (· = '.'))],
        wsStar,
        .grp 1 (.rep false 1 none (.cls (· ≠ '\n')))]

/-- Option splitting `re.findall(...)` of line 215: group-1 captures of all matches. -/
def findallOpts (raw : List Char) : List (List Char) :=
  (findIter faPat raw).filterMap (fun c => capGet c 1)

/-! ## `escape_markdown`, `parse_mcq` and the label maps (`Co_mcq.py` 46-50, 201-243) -/

/-- The MarkdownV2 special characters of the `escape_markdown` regex
`([_*[\]()~`>#+\-=|{}.!])` (line 203), given by codepoint. -/
def escSet : List Char :=
  [95, 42, 91, 93, 40, 41, 126, 96, 62, 35, 43, 45, 61, 124, 123, 125, 46, 33].map Char.ofNat

def escChar (c : Char) : List Char :=
  if escSet.contains c then ['\\', c] else [c]

/-- Function `escape_markdown`: prefix each special character with a backslash. -/
def escape_markdown (s : List Char) : List Char := (s.map escChar).flatten

/-- Python `str.strip()`. -/
def pyStripL (s : List Char) : List Char :=
  (((s.dropWhile isWs).reverse).dropWhile isWs).reverse

def pyStrip (s : String) : String := String.mk (pyStripL s.data)

/-- Python `str.lower()` (ASCII; Arabic has no case). -/
def pyLower (s : String) : String := String.mk (s.data.map Char.toLower)

/-- Map `ARABIC_DIGITS` (line 46-47): Arabic-Indic digits `٠`..`٩` mapped to
`"0"`..`"9"`, plus ASCII digits mapped to themselves; we store the digit
value directly since the code immediately applies `int`. -/
def ARABIC_DIGITS : List (String × Nat) :=
  (List.range 10).map (fun i => (String.mk [Char.ofNat (0x660 + i)], i)) ++
  (List.range 10).map (fun i => (String.mk [Char.ofNat (48 + i)], i))

/-- Map `EN_LETTERS` (line 48-49): `A`-`L` and `a`-`l` mapped to 0..11. -/
def EN_LETTERS : List (String × Nat) :=
  (List.range 12).map (fun i => (String.mk [Char.ofNat (65 + i)], i)) ++
  (List.range 12).map (fun i => (String.mk [Char.ofNat (97 + i)], i))

/-- Map `AR_LETTERS` (line 50); note the two-character key `هـ`. -/
def AR_LETTERS : List (String × Nat) :=
  [("أ", 0), ("ب", 1), ("ج", 2), ("د", 3), ("هـ", 4), ("و", 5),
   ("ز", 6), ("ح", 7), ("ط", 8), ("ي", 9), ("ك", 10), ("ل", 11)]

def dictGet (d : List (String × Nat)) (k : String) : Option Nat :=
  (d.find? (fun p => p.1 == k)).map (·.2)

/-- Python `int(s)` on the strings that can reach the fallback branch:
optional sign and decimal digits (ASCII or Arabic-Indic). -/
def pyInt (s : List Char) : Option Int :=
  let t := pyStripL s
  let digitVal : Char → Nat := fun c => if isAsciiDigit c then c.toNat - 48 else c.toNat - 0x660
  let core : List Char → Option Int := fun ds =>
    if ds ≠ [] ∧ ds.all isPyDigit then
      some (ds.foldl (fun acc c => 10 * acc + (digitVal c : Int)) 0)
    else none
  match t with
  | '-' :: ds => (core ds).map (- ·)
  | '+' :: ds => core ds
  | ds => core ds

/-- The answer-label resolution of `parse_mcq` (lines 223-236): a digit
key of `ARABIC_DIGITS` yields its value directly (NO minus one), then
the Latin and Arabic letter maps, then the `int(ans) - 1` fallback. -/
def resolveAns (ans : String) : Option Int :=
  match dictGet ARABIC_DIGITS ans with
  | some v => some (v : Int)
  | none =>
    match dictGet EN_LETTERS ans with
    | some v => some (v : Int)
    | none =>
      match dictGet AR_LETTERS ans with
      | some v => some (v : Int)
      | none => (pyInt ans.data).map (· - 1)

/-- A parsed candidate `(q, opts, idx, expl)` as appended at line 240. -/
structure Cand where
  q : String
  opts : List String
  idx : Nat
  expl : Option String
deriving DecidableEq

/-- Outcome of processing one regex match inside the `parse_mcq` loop:
append a candidate, `continue`, or the `return []` of line 222. -/
inductive StepRes where
  | ok (c : Cand)
  | skip
  | dup

/-- Delete every occurrence of `pat` (Python `str.replace(pat, "")`). -/
def removeAllAux : Nat → List Char → List Char → List Char
  | 0, _, s => s
  | _ + 1, _, [] => []
  | f + 1, pat, c :: rest =>
      if pat.isPrefixOf (c :: rest) then removeAllAux f pat ((c :: rest).drop pat.length)
      else c :: removeAllAux f pat rest

def removeAll (pat s : List Char) : List Char := removeAllAux s.length pat s

/-- Question text of a match: `escape_markdown(m.group("q").strip())`
(line 210). -/
def candQ (m : Caps) : String :=
  String.mk (escape_markdown (pyStripL ((capGet m 1).getD [])))

/-- Explanation of a match (lines 212-214): stripped group, with the
`Explanation:`/`تفسير:` markers removed, stripped and escaped when
non-empty. -/
def candExpl (m : Caps) : Option String :=
  match capGet m 3 with
  | none => none
  | some e =>
      let e1 := pyStripL e
      if e1 = [] then some "" else
        some (String.mk (escape_markdown (pyStripL
          (removeAll (sTafsir ++ ":").data (removeAll "Explanation:".data e1)))))

/-- Option texts of a match (line 215): `findall` split of the raw
`opts` group, each stripped and escaped. -/
def candOpts (m : Caps) : List String :=
  (findallOpts ((capGet m 2).getD [])).map (fun o => String.mk (escape_markdown (pyStripL o)))

/-- Answer label of a match: `m.group("ans").strip()` (line 223). -/
def candAns (m : Caps) : String := pyStrip (String.mk ((capGet m 4).getD []))

/-- The body of the `parse_mcq` match loop (lines 210-240) for one
match: the option-count check of line 216, the duplicate check of
lines 219-222 (`len(set(lowered)) != len(opts)`), label resolution and
the bounds check of line 237. -/
def processOne (m : Caps) : StepRes :=
  let opts := candOpts m
  if ¬ (2 ≤ opts.length ∧ opts.length ≤ 10) then .skip
  else if ((opts.map pyLower).dedup).length ≠ opts.length then .dup
  else
    match resolveAns (candAns m) with
    | none => .skip
    | some idx =>
        if 0 ≤ idx ∧ idx < (opts.length : Int) then .ok ⟨candQ m, opts, idx.toNat, candExpl m⟩
        else .skip

/-- The match loop of `parse_mcq`: candidates are appended in pattern
order then match order; a duplicate-options match aborts the whole call
with `[]` (the `return []` of line 222), discarding candidates already
found. -/
def processMatches : List Caps → List Cand → List Cand
  | [], acc => acc
  | m :: ms, acc =>
      match processOne m with
      | .ok c => processMatches ms (acc ++ [c])
      | .skip => processMatches ms acc
      | .dup => []

/-- Function `parse_mcq` (lines 205-243). -/
def parse_mcq (text : String) : List Cand :=
  processMatches ((PATTERNS.map (fun p => findIter p text.data)).flatten) []

/-! ## The per-destination queue and submission path (`Co_mcq.py` 38-43, 263-410)

State for one destination/user: `lastSent` is `last_sent_time[uid]`
(`time.time()` as a rational, `defaultdict(float)` initially `0`),
`queue` is `send_queues[cid]`, `cache` is `quiz_cache[cid]` (a set,
modelled as a list), `db` is the set of `quiz_id` keys present in the
`quizzes` table, `editing` is `context.user_data["editing_quiz_id"]`
collapsed to its truthiness, and `workers` counts the live
`process_queue` tasks spawned for this destination by
`asyncio.create_task` (line 409): a task stays live until its coroutine
finishes, and `enqueue_mcq` never checks for one before spawning. -/
structure Sys where
  lastSent : Int
  queue : List Cand
  cache : List String
  db : List String
  editing : Bool
  workers : Nat
deriving DecidableEq

/-- Digest `hashlib.md5((q + ':::'.join(opts)).encode()).hexdigest()` (lines
270, 388), modelled by the digest's preimage (the digest is only ever
used as an opaque key). -/
def quizHash (c : Cand) : String := c.q ++ String.intercalate ":::" c.opts

/-- The per-candidate enqueue loop of `enqueue_mcq` (lines 387-406):
skip if the hash is cached; if it is in the database and no edit is
pending, remember it in the cache and skip; otherwise append to the
queue tail and set `found` (an edit consumes the pending-edit flag via
an UPDATE, which changes no `quiz_id` key). -/
def enqueueCands : List Cand → Sys → Bool → Sys × Bool
  | [], st, found => (st, found)
  | c :: cs, st, found =>
      let h := quizHash c
      if h ∈ st.cache then enqueueCands cs st found
      else if h ∈ st.db ∧ ¬ st.editing then
        enqueueCands cs { st with cache := h :: st.cache } found
      else
        enqueueCands cs { st with queue := st.queue ++ [c], editing := false } true

/-- Split `re.split(r"\n{2,}", text)`: cut at maximal runs of two or more
newlines. -/
def splitNNAux : Nat → List Char → List Char → List (List Char)
  | 0, cur, s => [cur.reverse ++ s]
  | _ + 1, cur, [] => [cur.reverse]
  | f + 1, cur, c :: rest =>
      if c = '\n' then
        match rest with
        | '\n' :: rest2 => cur.reverse :: splitNNAux f [] (rest2.dropWhile (· = '\n'))
        | _ => splitNNAux f (c :: cur) rest
      else splitNNAux f (c :: cur) rest

/-- Blocks `[b for b in re.split(r"\n{2,}", text) if b.strip()]`
(line 379): the unstripped fragments whose strip is nonempty. -/
def splitBlocks (t : String) : List String :=
  ((splitNNAux t.data.length [] t.data).filter (fun b => pyStripL b ≠ [])).map String.mk

/-- Python's `in` on strings: `pat` occurs contiguously in `s`. -/
def isInfixL (pat s : List Char) : Bool :=
  (List.range (s.length + 1)).any (fun i => pat.isPrefixOf (s.drop i))

/-- The block loop of `enqueue_mcq` (lines 382-406).  Third component:
`true` iff the loop hit the early `return False` of line 386 (a block
that parsed to nothing while containing the literal text
"Duplicate options"); candidates already appended by earlier blocks
stay in the queue, but no worker is spawned. -/
def processBlocks : List String → Sys → Bool → Sys × Bool × Bool
  | [], st, found => (st, found, false)
  | b :: bs, st, found =>
      let cands := parse_mcq b
      if cands = [] ∧ isInfixL "Duplicate options".data b.data then (st, false, true)
      else
        let p := enqueueCands cands st found
        processBlocks bs p.1 p.2

/-- Function `enqueue_mcq` (lines 360-410) for one user and one destination:
the 2-second rate gate (which leaves `last_sent_time` untouched when it
rejects), the `len(queue) > 50` capacity gate, block splitting and
per-candidate enqueueing, and—whenever anything was enqueued—the
unconditional `asyncio.create_task(process_queue(...))` of line 409,
modelled as `workers + 1`. -/
def enqueue_mcq (now : Int) (text : String) (st : Sys) : Bool × Sys :=
  if now - st.lastSent < 2 then (false, st)
  else
    let st := { st with lastSent := now }
    if 50 < st.queue.length then (false, st)
    else
      let t := pyStrip text
      if t = "" then (false, st)
      else
        let r := processBlocks (splitBlocks t) st false
        if r.2.2 then (false, r.1)
        else if r.2.1 then (true, { r.1 with workers := r.1.workers + 1 })
        else (false, r.1)

/-- Result of one `process_queue` run: the leftover queue (nonempty only
when the worker stopped on a transient failure, with the failed item
pushed back to the head), the cache/database after the run, and the
successful `send_poll` calls in order. -/
structure DrainRes where
  queue : List Cand
  cache : List String
  db : List String
  sends : List Cand
deriving DecidableEq

/-- The `process_queue` drain loop (lines 263-358).  Per popped item:
skip when its hash is in the in-memory cache; when it is in the
`quizzes` table, add it to the cache and skip; otherwise the hash is
added to the cache BEFORE the delivery attempt (line 279).  For a
non-private destination a failed admin check drops the item.  The
delivery oracle `deliver` gives the outcome of the `att`-th `send_poll`
call (any exception in the `try` block lands in the same handler; the
poll call is the failure point modelled).  On success the first item of
the run is inserted into `quizzes` (the `if not quiz_id` of line 307 —
`quiz_id` stays set afterwards).  On failure the per-run retry counter
for the hash is bumped; at 3 the item is dropped with a notification
and the loop continues, otherwise the item is pushed back onto the head
and the worker stops (lines 350-358). -/
def process_queue : List Cand → List String → List String → Option String →
    List (String × Nat) → (Nat → Bool) → Nat → Bool → Bool → List Cand → DrainRes
  | [], cache, db, _, _, _, _, _, _, sends => ⟨[], cache, db, sends⟩
  | c :: rest, cache, db, quizId, retries, deliver, att, isPriv, permOk, sends =>
      let h := quizHash c
      if h ∈ cache then
        process_queue rest cache db quizId retries deliver att isPriv permOk sends
      else if h ∈ db then
        process_queue rest (h :: cache) db quizId retries deliver att isPriv permOk sends
      else
        let cache1 := h :: cache
        if ¬ isPriv ∧ ¬ permOk then
          process_queue rest cache1 db quizId retries deliver att isPriv permOk sends
        else if deliver att then
          match quizId with
          | none =>
              process_queue rest cache1 (h :: db) (some h) retries deliver (att + 1)
                isPriv permOk (sends ++ [c])
          | some qid =>
              process_queue rest cache1 db (some qid) retries deliver (att + 1)
                isPriv permOk (sends ++ [c])
        else
          let r := (((retries.find? (fun p => p.1 == h)).map (·.2)).getD 0) + 1
          if 3 ≤ r then
            process_queue rest cache1 db quizId ((h, r) :: retries) deliver (att + 1)
              isPriv permOk sends
          else
            ⟨c :: rest, cache1, db, sends⟩

/-- A fresh `process_queue` run over the queue of `st` (as started by a
trigger such as `create_task`; `quiz_id=None`, empty retry map). -/
def drainSys (st : Sys) (deliver : Nat → Bool) (isPriv permOk : Bool) : DrainRes :=
  process_queue st.queue st.cache st.db none [] deliver 0 isPriv permOk []

/-! ## `parse_premade_mcq` fragments (`Bot_mcq0.4v.py` 225-253, identical in
`Bot_mcq0.5v.py` 255-283) -/

/-- Answer-index arithmetic of `parse_premade_mcq` (lines 235-239): a
digit label (Arabic-Indic digits normalised to ASCII first) becomes its
value minus one; a letter label becomes `ord(lower) - ord('a')`. -/
def premadeAnsIdx (ans : Char) : Int :=
  if isPyDigit ans then
    (if isAsciiDigit ans then (ans.toNat : Int) - 48 else (ans.toNat : Int) - 0x660) - 1
  else
    (ans.toLower.toNat : Int) - 97

/-- Indexed option list `[{'idx': i, 'text': opts[i]} for i in range(len(opts))]`
(line 244). -/
def premadeIndexed (opts : List String) : List (Nat × String) :=
  (List.range opts.length).map (fun i => (i, opts.getD i ""))

/-- Texts in shuffled order, `[item['text'] for item in indexed]` after
the in-place `random.shuffle(indexed)` (lines 245-246); the shuffle
outcome is the permutation `perm` of the indexed list. -/
def premadeShuffled (perm : List (Nat × String)) : List String := perm.map Prod.snd

/-- Remapped index `next(i for i, item in enumerate(indexed) if item['idx'] == ans_idx)`
(line 247), over the shuffled list. -/
def premadeNewIndex (perm : List (Nat × String)) (ansIdx : Nat) : Nat :=
  perm.findIdx (fun p => p.1 == ansIdx)

/-! ## Concrete fixtures used by the theorems -/

/-- A minimal well-formed submission. -/
def tGood : String := "Q: a\nA) x\nB) y\nAnswer: A"

/-- A submission whose two options are identical. -/
def tDup : String := "Q: b\nA) z\nB) z\nAnswer: A"

/-- Both questions in ONE sub-block (separated by a single newline). -/
def tBoth : String := tGood ++ "\n" ++ tDup

/-- Both questions in TWO blocks (separated by a blank line). -/
def tTwoBlocks : String := tGood ++ "\n\n" ++ tDup

/-- Scenario A input of the specification. -/
def tScenA : String := "Q: 2+2?\nA) 3\nB) 4\nAnswer: B"

/-- A numeric-labelled submission whose answer label is the digit 1. -/
def tNum : String := "Q: pick?\n1) x\n2) y\nAnswer: 1"

/-- A submission whose third option text is 101 characters long.  The
two leading bare-label option lines make every grammar of the cascade
either match from the start or fail fast, which keeps the example
cheap to evaluate without changing what it shows. -/
def tLongOpt : String :=
  "Q: q\nz w\nv u\n1) " ++ String.mk (List.replicate 101 'x') ++ "\n2) y\nAnswer: 1"

/-- The candidate `parse_mcq` pattern 1 extracts from `tGood`. -/
def cGoodA : Cand := ⟨"a", ["x", "y"], 0, none⟩

/-- The candidate `parse_mcq` pattern 3 extracts from `tGood`. -/
def cGoodQA : Cand := ⟨"Q: a", ["x", "y"], 0, none⟩

/-- An unrelated queue filler item. -/
def dummyCand : Cand := ⟨"d", ["p", "qq"], 0, none⟩

/-- Fresh state: `defaultdict` zero time, empty queue/cache/database. -/
def sysInit : Sys := ⟨0, [], [], [], false, 0⟩

/-- State whose destination queue already holds exactly 50 items. -/
def sys50 : Sys := ⟨0, List.replicate 50 dummyCand, [], [], false, 0⟩

/-- State whose destination queue already holds 51 items. -/
def sys51 : Sys := ⟨0, List.replicate 51 dummyCand, [], [], false, 0⟩

/-! ## Helper lemmas -/

/-- The enqueue loop never touches the worker counter. -/
lemma enqueueCands_workers (cs : List Cand) (st : Sys) (f : Bool) :
    ((enqueueCands cs st f).1).workers = st.workers := by
  induction cs generalizing st f with
  | nil => rfl
  | cons c cs ih =>
      unfold enqueueCands
      dsimp only
      split
      · exact ih st f
      · split
        · exact ih _ f
        · exact ih _ true

/-- The block loop never touches the worker counter. -/
lemma processBlocks_workers (bs : List String) (st : Sys) (f : Bool) :
    ((processBlocks bs st f).1).workers = st.workers := by
  induction bs generalizing st f with
  | nil => rfl
  | cons b bs ih =>
      unfold processBlocks
      dsimp only
      split
      · rfl
      · exact (ih _ _).trans (enqueueCands_workers _ st f)

/-- A list whose deduplication preserves its length has no duplicates. -/
lemma nodup_of_dedup_length_eq {α : Type} [DecidableEq α] {l : List α}
    (h : l.dedup.length = l.length) : l.Nodup := by
  have hsub : l.dedup.Sublist l := List.dedup_sublist l
  have : l.dedup = l := hsub.eq_of_length h
  exact List.dedup_eq_self.mp this

/-- Any candidate the `parse_mcq` loop emits passed the option-count and
duplicate checks of lines 216-222. -/
lemma processOne_ok_shape {m : Caps} {c : Cand} (h : processOne m = .ok c) :
    2 ≤ c.opts.length ∧ c.opts.length ≤ 10 ∧ (c.opts.map pyLower).Nodup := by
  unfold processOne at h
  dsimp only at h
  split at h
  · exact absurd h (by simp)
  · split at h
    · exact absurd h (by simp)
    · split at h
      · exact absurd h (by simp)
      · split at h
        · rename_i hcnt hdup _ _ _ _
          cases h
          exact ⟨(not_not.mp hcnt).1, (not_not.mp hcnt).2,
            nodup_of_dedup_length_eq
              ((not_not.mp hdup).trans (List.length_map _ _).symm)⟩
        · exact absurd h (by simp)

/-- Every candidate in the output of the match loop either was in the
accumulator or passed the checks. -/
lemma processMatches_shape (ms : List Caps) (acc : List Cand) (c : Cand)
    (hc : c ∈ processMatches ms acc)
    (hacc : ∀ a ∈ acc, 2 ≤ a.opts.length ∧ a.opts.length ≤ 10 ∧ (a.opts.map pyLower).Nodup) :
    2 ≤ c.opts.length ∧ c.opts.length ≤ 10 ∧ (c.opts.map pyLower).Nodup := by
  induction ms generalizing acc with
  | nil => exact hacc c hc
  | cons m ms ih =>
      unfold processMatches at hc
      cases hp : processOne m with
      | ok c0 =>
          rw [hp] at hc
          refine ih _ hc ?_
          intro a ha
          rcases List.mem_append.mp ha with h1 | h2
          · exact hacc a h1
          · rcases List.mem_singleton.mp h2 with rfl
            exact processOne_ok_shape hp
      | skip => rw [hp] at hc; exact ih _ hc hacc
      | dup => rw [hp] at hc; exact absurd hc (List.not_mem_nil c)

/-! ## Claim theorems -/

/-- C9.  Shuffle round-trip of `parse_premade_mcq` (Bot_mcq0.4v.py
244-249, Bot_mcq0.5v.py 274-279): for every option list, every valid
answer index and every outcome `perm` of `random.shuffle` on the
indexed option list, the option found at the remapped index in the
shuffled list is exactly the option originally marked correct. -/
theorem C9_shuffle_round_trip (opts : List String) (ansIdx : Nat)
    (perm : List (Nat × String)) (hidx : ansIdx < opts.length)
    (hperm : perm.Perm (premadeIndexed opts)) :
    (premadeShuffled perm).getD (premadeNewIndex perm ansIdx) "" = opts.getD ansIdx "" := by
  have hmem0 : (ansIdx, opts.getD ansIdx "") ∈ premadeIndexed opts := by
    simp only [premadeIndexed, List.mem_map, List.mem_range]
    exact ⟨ansIdx, hidx, rfl⟩
  have hmem : (ansIdx, opts.getD ansIdx "") ∈ perm := hperm.mem_iff.mpr hmem0
  have hex : ∃ x ∈ perm, (fun p : Nat × String => p.1 == ansIdx) x := ⟨_, hmem, by simp⟩
  have hlt : premadeNewIndex perm ansIdx < perm.length :=
    List.findIdx_lt_length_of_exists hex
  have hfst : (perm.get ⟨premadeNewIndex perm ansIdx, hlt⟩).1 = ansIdx := by
    have hlt2 : perm.findIdx (fun p : Nat × String => p.1 == ansIdx) < perm.length := hlt
    have := @List.findIdx_getElem _ (fun p : Nat × String => p.1 == ansIdx) perm hlt2
    simpa [premadeNewIndex] using this
  have hfstnodup : (perm.map Prod.fst).Nodup := by
    have h1 : (premadeIndexed opts).map Prod.fst = List.range opts.length := by
      rw [premadeIndexed, List.map_map]
      exact List.map_id _
    have h2 : (perm.map Prod.fst).Perm (List.range opts.length) := by
      rw [← h1]; exact hperm.map Prod.fst
    exact h2.nodup_iff.mpr (List.nodup_range _)
  have hgetmem : perm.get ⟨premadeNewIndex perm ansIdx, hlt⟩ ∈ perm := List.get_mem _ _ hlt
  have heq : perm.get ⟨premadeNewIndex perm ansIdx, hlt⟩ = (ansIdx, opts.getD ansIdx "") :=
    List.inj_on_of_nodup_map hfstnodup hgetmem hmem (by rw [hfst])
  have hlen : premadeNewIndex perm ansIdx < (premadeShuffled perm).length := by
    simpa [premadeShuffled] using hlt
  rw [List.getD_eq_getElem _ _ hlen]
  simp only [premadeShuffled, List.getElem_map]
  rw [show perm[premadeNewIndex perm ansIdx] = perm.get ⟨premadeNewIndex perm ansIdx, hlt⟩ from rfl,
     heq]

/-- C9 witness: options `["x", "y"]`, correct index 1, shuffle swapping
the two entries. -/
theorem C9_shuffle_round_trip_witness :
    1 < (["x", "y"] : List String).length ∧
    ([(1, "y"), (0, "x")] : List (Nat × String)).Perm (premadeIndexed ["x", "y"]) ∧
    (premadeShuffled [(1, "y"), (0, "x")]).getD (premadeNewIndex [(1, "y"), (0, "x")] 1) "" =
      (["x", "y"] : List String).getD 1 "" :=
  ⟨by decide, by decide,
   C9_shuffle_round_trip ["x", "y"] 1 [(1, "y"), (0, "x")] (by decide) (by decide)⟩

/-- C2 counterexample: two successful submissions two seconds apart,
with the first worker still live, leave TWO live `process_queue` worker
tasks for the same destination — `enqueue_mcq` (line 407-409) spawns
unconditionally, refuting the at-most-one-active-worker check-and-start. -/
theorem C2_counterexample :
    ((enqueue_mcq 4 tGood (enqueue_mcq 2 tGood sysInit).2).2).workers = 2 := by decide

/-- C2 amended: `enqueue_mcq` performs no check of existing workers:
every submission that reports success spawns a fresh `process_queue`
task, incrementing the live-worker count regardless of its current
value. -/
theorem C2_unconditional_spawn (now : Int) (text : String) (st : Sys)
    (h : (enqueue_mcq now text st).1 = true) :
    ((enqueue_mcq now text st).2).workers = st.workers + 1 := by
  unfold enqueue_mcq at h ⊢
  dsimp only at h ⊢
  by_cases h1 : now - st.lastSent < 2
  · rw [if_pos h1] at h; exact absurd h (by simp)
  · rw [if_neg h1] at h ⊢
    by_cases h2 : 50 < st.queue.length
    · rw [if_pos h2] at h; exact absurd h (by simp)
    · rw [if_neg h2] at h ⊢
      by_cases h3 : pyStrip text = ""
      · rw [if_pos h3] at h; exact absurd h (by simp)
      · rw [if_neg h3] at h ⊢
        by_cases h4 : (processBlocks (splitBlocks (pyStrip text))
            { st with lastSent := now } false).2.2 = true
        · rw [if_pos h4] at h; exact absurd h (by simp)
        · rw [if_neg h4] at h ⊢
          by_cases h5 : (processBlocks (splitBlocks (pyStrip text))
              { st with lastSent := now } false).2.1 = true
          · rw [if_pos h5]
            exact congrArg (· + 1) (processBlocks_workers _ _ _)
          · rw [if_neg h5] at h; exact absurd h (by simp)

/-- C2 witness: the first submission on a fresh state succeeds and
leaves one worker. -/
theorem C2_unconditional_spawn_witness :
    (enqueue_mcq 2 tGood sysInit).1 = true ∧
    ((enqueue_mcq 2 tGood sysInit).2).workers = sysInit.workers + 1 :=
  ⟨by decide, C2_unconditional_spawn 2 tGood sysInit (by decide)⟩

/-- C5 counterexample: a queue already holding exactly 50 items does
NOT reject — the submission succeeds and both parsed candidates are
appended, leaving 52 items (`len > 50` at line 372 admits length 50). -/
theorem C5_counterexample :
    (enqueue_mcq 2 tGood sys50).1 = true ∧
    ((enqueue_mcq 2 tGood sys50).2).queue.length = 52 := by decide

/-- C5 amended: `enqueue_mcq` rejects only when the destination queue
already holds MORE than 50 items; it then reports failure and leaves
the queue (indeed everything except the rate-limit stamp) unchanged. -/
theorem C5_overfull_reject (now : Int) (text : String) (st : Sys)
    (hrate : ¬ now - st.lastSent < 2) (hfull : 50 < st.queue.length) :
    enqueue_mcq now text st = (false, { st with lastSent := now }) := by
  unfold enqueue_mcq
  rw [if_neg hrate, if_pos hfull]

/-- C5 witness: a queue of 51 items rejects the submission unchanged. -/
theorem C5_overfull_reject_witness :
    ¬ ((2 : Int) - sys51.lastSent < 2) ∧ 50 < sys51.queue.length ∧
    enqueue_mcq 2 tGood sys51 = (false, { sys51 with lastSent := 2 }) :=
  ⟨by decide, by decide, C5_overfull_reject 2 tGood sys51 (by decide) (by decide)⟩

/-- C4.  Enqueueing the same candidate (same content hash) twice to one
destination and draining with a transport that always succeeds yields
exactly one `send_poll` delivery: the enqueue loop appends both copies
(the cache is only written by the worker), and the worker sends the
first and skips the second through the cache entry added at line 279. -/
theorem C4_dedup_single_delivery (c : Cand) (cache db : List String)
    (hc : quizHash c ∉ cache) (hd : quizHash c ∉ db) :
    (process_queue (enqueueCands [c, c] ⟨0, [], cache, db, false, 0⟩ false).1.queue
       cache db none [] (fun _ => true) 0 true true []).sends = [c] ∧
    (process_queue (enqueueCands [c, c] ⟨0, [], cache, db, false, 0⟩ false).1.queue
       cache db none [] (fun _ => true) 0 true true []).queue = [] := by
  have henq :
      (enqueueCands [c, c] ⟨0, [], cache, db, false, 0⟩ false).1.queue = [c, c] := by
    unfold enqueueCands
    dsimp only
    rw [if_neg hc, if_neg (by simp [hd])]
    unfold enqueueCands
    dsimp only
    rw [if_neg hc, if_neg (by simp [hd])]
    rfl
  rw [henq]
  unfold process_queue
  dsimp only
  rw [if_neg hc, if_neg hd]
  simp only [not_true_eq_false, false_and, if_false, if_true]
  unfold process_queue
  dsimp only
  rw [if_pos (List.mem_cons_self _ _)]
  unfold process_queue
  exact ⟨rfl, rfl⟩

/-- C4 witness at a concrete candidate and empty cache/database. -/
theorem C4_dedup_single_delivery_witness :
    quizHash cGoodA ∉ ([] : List String) ∧ quizHash cGoodA ∉ ([] : List String) ∧
    ((process_queue (enqueueCands [cGoodA, cGoodA] ⟨0, [], [], [], false, 0⟩ false).1.queue
        [] [] none [] (fun _ => true) 0 true true []).sends = [cGoodA] ∧
     (process_queue (enqueueCands [cGoodA, cGoodA] ⟨0, [], [], [], false, 0⟩ false).1.queue
        [] [] none [] (fun _ => true) 0 true true []).queue = []) :=
  ⟨by decide, by decide, C4_dedup_single_delivery cGoodA [] [] (by decide) (by decide)⟩

/-- C6 counterexample: a transient failure on the only queued item does
push it back onto the head and stop the worker — but its hash is
already in the dedup cache (added at line 279 before the attempt), so
re-running the worker with a HEALTHY transport silently discards the
item: no send ever happens, refuting the claimed re-attempt. -/
theorem C6_counterexample :
    process_queue [cGoodA] [] [] none [] (fun _ => false) 0 true true [] =
      ⟨[cGoodA], [quizHash cGoodA], [], []⟩ ∧
    process_queue [cGoodA] [quizHash cGoodA] [] none [] (fun _ => true) 0 true true [] =
      ⟨[], [quizHash cGoodA], [], []⟩ := by decide

/-- C6 amended: on a transient failure the worker pushes the item back
onto the head of the queue and stops (retry counter 1 < 3), leaving
the item's hash in the cache; any later run then treats the re-queued
head item as a cached duplicate and pops-and-drops it without a
delivery attempt, regardless of the new transport behaviour. -/
theorem C6_requeue_then_cached_drop (c : Cand) (rest : List Cand)
    (cache db : List String) (deliver del2 : Nat → Bool)
    (hc : quizHash c ∉ cache) (hd : quizHash c ∉ db) (hfail : deliver 0 = false) :
    process_queue (c :: rest) cache db none [] deliver 0 true true [] =
      ⟨c :: rest, quizHash c :: cache, db, []⟩ ∧
    process_queue (c :: rest) (quizHash c :: cache) db none [] del2 0 true true [] =
      process_queue rest (quizHash c :: cache) db none [] del2 0 true true [] := by
  constructor
  · unfold process_queue
    dsimp only
    rw [if_neg hc, if_neg hd, hfail]
    simp
  · conv_lhs => unfold process_queue
    dsimp only
    rw [if_pos (List.mem_cons_self _ _)]

/-- C6 witness at a concrete item with a failing-then-healthy oracle. -/
theorem C6_requeue_then_cached_drop_witness :
    quizHash cGoodA ∉ ([] : List String) ∧ quizHash cGoodA ∉ ([] : List String) ∧
    ((fun _ : Nat => false) 0 = false) ∧
    (process_queue [cGoodA] [] [] none [] (fun _ => false) 0 true true [] =
       ⟨[cGoodA], [quizHash cGoodA], [], []⟩ ∧
     process_queue [cGoodA] [quizHash cGoodA] [] none [] (fun _ => true) 0 true true [] =
       process_queue [] [quizHash cGoodA] [] none [] (fun _ => true) 0 true true []) :=
  ⟨by decide, by decide, rfl,
   C6_requeue_then_cached_drop cGoodA [] [] [] (fun _ => false) (fun _ => true)
     (by decide) (by decide) rfl⟩

/-- C10 counterexample: a submission one second after the previous one
is rejected, but `last_sent_time` is NOT reset — the early return at
lines 364-366 precedes the update at line 367, so the window still
starts at the previous accepted submission (2, not 3). -/
theorem C10_counterexample :
    enqueue_mcq 3 tGood { sysInit with lastSent := 2 } =
      (false, { sysInit with lastSent := 2 }) ∧ (2 : Int) ≠ 3 := by
  constructor
  · unfold enqueue_mcq
    rw [if_pos (by decide)]
  · decide

/-- C10 amended: a submission arriving less than 2 seconds after the
same user's previous ACCEPTED submission is rejected outright —
nothing parsed or enqueued, `enqueue_mcq` returns false — and the
entire state, including the rate-limit stamp, is left unchanged. -/
theorem C10_rate_gate (now : Int) (text : String) (st : Sys)
    (h : now - st.lastSent < 2) :
    enqueue_mcq now text st = (false, st) := by
  unfold enqueue_mcq
  rw [if_pos h]

/-- C10 witness. -/
theorem C10_rate_gate_witness :
    ((3 : Int) - ({ sysInit with lastSent := 2 } : Sys).lastSent < 2) ∧
    enqueue_mcq 3 tGood { sysInit with lastSent := 2 } =
      (false, { sysInit with lastSent := 2 }) :=
  ⟨by decide, C10_rate_gate 3 tGood _ (by decide)⟩

/-- C1.  In `parse_mcq` a digit answer label resolves through
`ARABIC_DIGITS` to its face value WITHOUT the minus-one (line 226: the
`int(ans) - 1` fallback of line 233 is unreachable for digits), so the
label `"1"` yields index 1 — the second option — for both candidates
parsed from a numeric-labelled question, while the sibling
`parse_premade_mcq` (Bot_mcq0.4v.py line 236) maps the same label to
index 0 as the specification states. -/
theorem C1_digit_label_not_decremented :
    resolveAns "1" = some 1 ∧
    (parse_mcq tNum).map Cand.idx = [1, 1] ∧
    premadeAnsIdx '1' = 0 := by decide

set_option maxHeartbeats 4000000 in
set_option maxRecDepth 1000000 in
/-- C3 counterexample: a submission whose first option text is 101
characters long still produces candidates — `parse_mcq` never checks
question or option lengths, so a `ParsedQuestion` violating the
100-character option bound is emitted. -/
theorem C3_counterexample :
    (parse_mcq tLongOpt).any (fun c => c.opts.any (fun o => 100 < o.length)) = true := by
  decide

/-- C3 amended: every candidate `parse_mcq` emits satisfies the checks
the code does perform — between 2 and 10 options, pairwise distinct
after lowercasing — but no length constraint. -/
theorem C3_candidates_pass_performed_checks (text : String) (c : Cand)
    (hc : c ∈ parse_mcq text) :
    2 ≤ c.opts.length ∧ c.opts.length ≤ 10 ∧ (c.opts.map pyLower).Nodup := by
  unfold parse_mcq at hc
  exact processMatches_shape _ _ _ hc (by simp)

/-- C3 witness at the candidate pattern 1 extracts from `tGood`. -/
theorem C3_candidates_pass_performed_checks_witness :
    cGoodA ∈ parse_mcq tGood ∧
    (2 ≤ cGoodA.opts.length ∧ cGoodA.opts.length ≤ 10 ∧ (cGoodA.opts.map pyLower).Nodup) :=
  ⟨by decide, C3_candidates_pass_performed_checks tGood cGoodA (by decide)⟩

/-- C7 counterexample: when a valid question and a question with
duplicated options sit in the SAME sub-block, the `return []` of
line 222 discards the already-parsed valid candidate as well —
`parse_mcq` yields nothing although the same valid question alone
yields two candidates. -/
theorem C7_counterexample :
    parse_mcq tBoth = [] ∧ parse_mcq tGood = [cGoodA, cGoodQA] := by decide

/-- C7 amended: a duplicate-options match aborts parsing of its whole
sub-block (dropping sibling candidates parsed from the same block and
reporting "no valid questions found" for it), while blocks separated by
a blank line are parsed independently: the same two questions split by
a blank line enqueue the valid question's candidates and report
success. -/
theorem C7_duplicate_kills_block :
    (enqueue_mcq 2 tBoth sysInit).1 = false ∧
    ((enqueue_mcq 2 tBoth sysInit).2).queue = [] ∧
    (enqueue_mcq 2 tTwoBlocks sysInit).1 = true ∧
    ((enqueue_mcq 2 tTwoBlocks sysInit).2).queue = [cGoodA, cGoodQA] := by decide

/-- C8 counterexample: Scenario A yields TWO candidates, not one (the
prefix-less pattern 3 also matches, with the `Q:` marker left inside
the question text). -/
theorem C8_counterexample : (parse_mcq tScenA).length = 2 := by decide

/-- C8 amended: parsing `"Q: 2+2?\nA) 3\nB) 4\nAnswer: B"` yields the
two candidates `("2\+2?", ["3","4"], 1)` and `("Q: 2\+2?", ["3","4"], 1)`
— options and correct index as the scenario states, but the question
text is MarkdownV2-escaped (`+` becomes `\+`) and duplicated with the
`Q:` prefix by pattern 3. -/
theorem C8_scenario_a :
    parse_mcq tScenA =
      [⟨"2\\+2?", ["3", "4"], 1, none⟩, ⟨"Q: 2\\+2?", ["3", "4"], 1, none⟩] := by decide

end MCQBot
